import Mathlib

/-
Verification of the gatekeeper-api account-security core: a shallow
embedding of the Mongoose user-model methods (src/src/config/enhanced.js,
second module: incLoginAttempts, resetLoginAttempts, addRefreshToken,
removeRefreshToken, clearAllRefreshTokens, cleanupExpiredTokens,
updateLastLogin, the isLocked virtual) and of the AuthController
operations (register, login, refreshToken, logout, logoutAll) together
with the route table of src/src/routes/auth.routes.js.

Timestamps are integers (milliseconds since the epoch, the value of
Date.now in the source).  External collaborators are passed as explicit
function parameters: bcrypt compare as a function of the candidate
password and the stored hash, jwt signing as the produced token string,
jwt verification of a refresh token as a decode function returning the
decoded user id (none when jwt.verify throws).  Mongoose persistence
(updateOne / save) is modelled by returning the updated user record: the
net persisted state after each controller call is the composition of the
record updates the source performs.
-/

namespace Gatekeeper

/-- One element of the refreshTokens array of the user schema:
token string, createdAt (default Date.now) and expiresAt. -/
structure TokenEntry where
  token : String
  createdAt : Int
  expiresAt : Int
  deriving DecidableEq, Repr

/-- The user record fields the security core reads or writes
(userSchema in enhanced.js).  loginAttempts has schema default 0, so the
field removed by an $unset update reads back as 0; lockUntil and
lastLogin have no default and are optional. -/
structure UserRec where
  uid : String
  fullName : String
  email : String
  password : String
  role : String
  isActive : Bool
  isVerified : Bool
  lastLogin : Option Int
  loginAttempts : Nat
  lockUntil : Option Int
  refreshTokens : List TokenEntry
  deriving DecidableEq, Repr

/-- An HTTP response as the controller produces it: status code,
success flag and message of the JSON body. -/
structure Response where
  status : Nat
  success : Bool
  message : String
  deriving DecidableEq, Repr

/-- Lock duration: 2 hours in milliseconds (enhanced.js line 385). -/
def lockTimeMs : Int := 2 * 60 * 60 * 1000

/-- Hardcoded expiry of a stored refresh-token entry: 7 days in
milliseconds (enhanced.js lines 445 to 446 add 7 days to now). -/
def sevenDaysMs : Int := 7 * 24 * 60 * 60 * 1000

/-- The configuration surface relevant to refresh-token lifetime:
JWT_REFRESH_EXPIRES_IN (enhanced.js line 132), as a duration in
milliseconds. -/
structure Config where
  jwtRefreshExpiresIn : Int
  deriving DecidableEq, Repr

/-- Default configuration: JWT_REFRESH_EXPIRES_IN defaults to the
string 7d, i.e. seven days. -/
def defaultConfig : Config := ⟨sevenDaysMs⟩

/-- Expiry instant encoded into a signed refresh token:
jwt.sign with expiresIn = config.JWT_REFRESH_EXPIRES_IN
(generateRefreshToken, enhanced.js lines 430 to 441). -/
def generateRefreshTokenExpiry (cfg : Config) (now : Int) : Int :=
  now + cfg.jwtRefreshExpiresIn

/-- The isLocked virtual (enhanced.js lines 398 to 400):
lockUntil is present and strictly greater than Date.now. -/
def isLocked (u : UserRec) (now : Int) : Bool :=
  match u.lockUntil with
  | some t => decide (now < t)
  | none => false

/-- incLoginAttempts (enhanced.js lines 372 to 389).  If a previous
lock has expired (lockUntil strictly before now) restart at 1 and unset
lockUntil; otherwise $inc loginAttempts by 1, and additionally $set
lockUntil to now + 2 hours when the pre-update count + 1 is at least 5
and no lockUntil is present. -/
def incLoginAttempts (u : UserRec) (now : Int) : UserRec :=
  match u.lockUntil with
  | some t =>
      if t < now then
        { u with loginAttempts := 1, lockUntil := none }
      else
        { u with loginAttempts := u.loginAttempts + 1 }
  | none =>
      if u.loginAttempts + 1 ≥ 5 then
        { u with loginAttempts := u.loginAttempts + 1,
                 lockUntil := some (now + lockTimeMs) }
      else
        { u with loginAttempts := u.loginAttempts + 1 }

/-- resetLoginAttempts (enhanced.js lines 391 to 395): $unset of both
loginAttempts (reads back as the schema default 0) and lockUntil. -/
def resetLoginAttempts (u : UserRec) : UserRec :=
  { u with loginAttempts := 0, lockUntil := none }

/-- updateLastLogin (enhanced.js lines 487 to 490). -/
def updateLastLogin (u : UserRec) (now : Int) : UserRec :=
  { u with lastLogin := some now }

/-- cleanupExpiredTokens (enhanced.js lines 513 to 517): keep entries
with expiresAt strictly after now. -/
def cleanupExpiredTokens (u : UserRec) (now : Int) : UserRec :=
  { u with refreshTokens :=
      u.refreshTokens.filter (fun e => decide (now < e.expiresAt)) }

/-- addRefreshToken (enhanced.js lines 444 to 459): push an entry whose
expiresAt is now + 7 days (hardcoded), then when the array exceeds 5
keep only the last 5 (slice of the last five elements). -/
def addRefreshToken (u : UserRec) (tok : String) (now : Int) : UserRec :=
  let rts := u.refreshTokens ++ [⟨tok, now, now + sevenDaysMs⟩]
  { u with refreshTokens :=
      if rts.length > 5 then rts.drop (rts.length - 5) else rts }

/-- removeRefreshToken (enhanced.js lines 461 to 464): filter out every
entry whose token equals the given string. -/
def removeRefreshToken (u : UserRec) (tok : String) : UserRec :=
  { u with refreshTokens :=
      u.refreshTokens.filter (fun e => !(e.token == tok)) }

/-- clearAllRefreshTokens (enhanced.js lines 466 to 469). -/
def clearAllRefreshTokens (u : UserRec) : UserRec :=
  { u with refreshTokens := [] }

/-- The user record built by new User with only fullName, email and
password taken from the request body (AuthController.register lines 20
and 32 to 36); role, isActive, isVerified, loginAttempts, refreshTokens
come from the schema defaults. -/
def newUser (uid fullName email hashed : String) : UserRec :=
  { uid := uid, fullName := fullName, email := email, password := hashed,
    role := "user", isActive := true, isVerified := false,
    lastLogin := none, loginAttempts := 0, lockUntil := none,
    refreshTokens := [] }

/-- A registration request body.  The controller destructures only
fullName, email and password; the remaining fields model arbitrary
extra data a caller may put in the body (a role, verified or active
flag), which the source never reads. -/
structure RegisterBody where
  fullName : String
  email : String
  password : String
  bodyRole : Option String
  bodyIsVerified : Option Bool
  bodyIsActive : Option Bool
  deriving DecidableEq, Repr

/-- AuthController.register (part_000 lines 8 to 77), after input
validation: 409 when a user with the email exists, otherwise create the
user (password hashed by the pre-save hook, modelled by bhash), store
the generated refresh token, answer 201.  The first component is the
persisted user record, none when nothing was created. -/
def register (bhash : String → String) (existing : Option UserRec)
    (b : RegisterBody) (uid newRefresh : String) (now : Int) :
    Option UserRec × Response :=
  match existing with
  | some _ => (none, ⟨409, false, "User already exists with this email"⟩)
  | none =>
      let u := newUser uid b.fullName b.email.toLower (bhash b.password)
      (some (addRefreshToken u newRefresh now),
       ⟨201, true, "User registered successfully"⟩)

/-- AuthController.login (part_000 lines 80 to 174), after input
validation.  findResult is the outcome of User.findByEmail; bc is
bcrypt.compare on candidate password and stored hash; newRefresh is the
token produced by generateRefreshToken.  The first component is the
user record as persisted after the call (none when no user matched). -/
def login (bc : String → String → Bool) (now : Int)
    (findResult : Option UserRec) (password newRefresh : String) :
    Option UserRec × Response :=
  match findResult with
  | none => (none, ⟨401, false, "Invalid credentials"⟩)
  | some u =>
      if isLocked u now then
        (some u,
         ⟨423, false,
          "Account temporarily locked due to too many failed login attempts"⟩)
      else if !u.isActive then
        (some u, ⟨403, false, "Account is deactivated"⟩)
      else if !(bc password u.password) then
        (some (incLoginAttempts u now),
         ⟨401, false, "Invalid credentials"⟩)
      else
        (some (addRefreshToken
                 (cleanupExpiredTokens
                    (updateLastLogin (resetLoginAttempts u) now) now)
                 newRefresh now),
         ⟨200, true, "Login successful"⟩)

/-- AuthController.refreshToken (part_000 lines 177 to 240).  presented
is the refreshToken cookie; decode models jwt.verify against the
refresh secret, returning the decoded user id or none when it throws
(expired or bad signature, caught as 401); findById models
User.findById; newRefresh is the token from generateRefreshToken. -/
def refreshTokenOp (presented : Option String)
    (decode : String → Option String)
    (findById : String → Option UserRec)
    (newRefresh : String) (now : Int) : Option UserRec × Response :=
  match presented with
  | none => (none, ⟨401, false, "Refresh token not provided"⟩)
  | some rt =>
      match decode rt with
      | none => (none, ⟨401, false, "Invalid or expired refresh token"⟩)
      | some uid =>
          match findById uid with
          | none => (none, ⟨401, false, "User not found"⟩)
          | some u =>
              if u.refreshTokens.any (fun e => e.token == rt) then
                (some (addRefreshToken (removeRefreshToken u rt)
                         newRefresh now),
                 ⟨200, true, "Token refreshed successfully"⟩)
              else
                (some u, ⟨401, false, "Invalid refresh token"⟩)

/-- AuthController.logout (part_000 lines 243 to 270).  authUser is
req.user (populated only by the authenticateToken middleware), so its
id is none on the public route; the token is removed only when both the
cookie and the authenticated user id are present.  The response is
always 200 success. -/
def logout (cookieToken : Option String) (authUser : Option String)
    (findById : String → Option UserRec) : Option UserRec × Response :=
  match cookieToken, authUser with
  | some rt, some uid =>
      (match findById uid with
       | some u => some (removeRefreshToken u rt)
       | none => none,
       ⟨200, true, "Logout successful"⟩)
  | _, _ => (none, ⟨200, true, "Logout successful"⟩)

/-- AuthController.logoutAll (part_000 lines 273 to 295): clear the
whole registry of the authenticated user. -/
def logoutAll (found : Option UserRec) : Option UserRec × Response :=
  match found with
  | some u =>
      (some (clearAllRefreshTokens u),
       ⟨200, true, "Logged out from all devices successfully"⟩)
  | none =>
      (none, ⟨200, true, "Logged out from all devices successfully"⟩)

/-- One route of auth.routes.js: path and whether the authenticateToken
middleware is attached. -/
structure Route where
  path : String
  requiresAuth : Bool
  deriving DecidableEq, Repr

/-- The route table of src/src/routes/auth.routes.js lines 40 to 47:
register, login, refresh-token and logout are public (rate limiting
only); logout-all and profile attach authenticateToken. -/
def authRoutes : List Route :=
  [⟨"/register", false⟩, ⟨"/login", false⟩, ⟨"/refresh-token", false⟩,
   ⟨"/logout", false⟩, ⟨"/logout-all", true⟩, ⟨"/profile", true⟩]

/-- A concrete fresh user record used to instantiate theorems. -/
def uFresh : UserRec :=
  { uid := "u1", fullName := "Alice Doe", email := "alice@example.com",
    password := "storedhash", role := "user", isActive := true,
    isVerified := false, lastLogin := none, loginAttempts := 0,
    lockUntil := none, refreshTokens := [] }

/-- A concrete record at the lock boundary: 4 prior failed attempts and
lockUntil equal to the current instant (set, not strictly in the past,
account not locked). -/
def uBoundary : UserRec :=
  { uFresh with loginAttempts := 4, lockUntil := some 1000 }

/-- A concrete record already holding 5 refresh tokens. -/
def uFive : UserRec :=
  { uFresh with refreshTokens :=
      [⟨"t1", 0, 10⟩, ⟨"t2", 1, 11⟩, ⟨"t3", 2, 12⟩,
       ⟨"t4", 3, 13⟩, ⟨"t5", 4, 14⟩] }

/-- A concrete record holding one live refresh token named rtok. -/
def uOneTok : UserRec :=
  { uFresh with refreshTokens := [⟨"rtok", 0, 604800000⟩] }

/-- A concrete decode function accepting exactly the token rtok as
belonging to user u1. -/
def decodeOne : String → Option String :=
  fun s => if s == "rtok" then some "u1" else none

/-- A one-day refresh TTL configuration (a non-default but recognized
value of JWT_REFRESH_EXPIRES_IN). -/
def cfgOneDay : Config := ⟨24 * 60 * 60 * 1000⟩

theorem isLocked_eq_false_of_none {u : UserRec} (h : u.lockUntil = none)
    (now : Int) : isLocked u now = false := by
  simp [isLocked, h]

theorem login_fail_eq (bc : String → String → Bool) (now : Int) (u : UserRec)
    (pw r : String) (hl : isLocked u now = false) (ha : u.isActive = true)
    (hbc : bc pw u.password = false) :
    login bc now (some u) pw r =
      (some (incLoginAttempts u now), ⟨401, false, "Invalid credentials"⟩) := by
  simp [login, hl, ha, hbc]

theorem incLoginAttempts_none_eq (u : UserRec) (now : Int)
    (h : u.lockUntil = none) :
    incLoginAttempts u now =
      if u.loginAttempts + 1 ≥ 5 then
        { u with loginAttempts := u.loginAttempts + 1,
                 lockUntil := some (now + lockTimeMs) }
      else
        { u with loginAttempts := u.loginAttempts + 1 } := by
  unfold incLoginAttempts
  rw [h]

theorem incLoginAttempts_none_fields (u : UserRec) (now : Int)
    (h : u.lockUntil = none) :
    (incLoginAttempts u now).loginAttempts = u.loginAttempts + 1 ∧
    (incLoginAttempts u now).password = u.password ∧
    (incLoginAttempts u now).isActive = u.isActive ∧
    (u.loginAttempts + 1 < 5 → (incLoginAttempts u now).lockUntil = none) ∧
    (u.loginAttempts + 1 ≥ 5 →
      (incLoginAttempts u now).lockUntil = some (now + lockTimeMs)) := by
  rw [incLoginAttempts_none_eq u now h]
  by_cases h5 : u.loginAttempts + 1 ≥ 5
  · rw [if_pos h5]
    exact ⟨rfl, rfl, rfl, fun h6 => absurd h5 (by omega), fun _ => rfl⟩
  · rw [if_neg h5]
    exact ⟨rfl, rfl, rfl, fun _ => h, fun h6 => absurd h6 h5⟩

theorem incLoginAttempts_some_past (u : UserRec) (now t : Int)
    (h : u.lockUntil = some t) (hp : t < now) :
    incLoginAttempts u now = { u with loginAttempts := 1, lockUntil := none } := by
  simp only [incLoginAttempts, h]
  rw [if_pos hp]

theorem incLoginAttempts_some_not_past (u : UserRec) (now t : Int)
    (h : u.lockUntil = some t) (hnp : ¬ t < now) :
    incLoginAttempts u now = { u with loginAttempts := u.loginAttempts + 1 } := by
  simp only [incLoginAttempts, h]
  rw [if_neg hnp]

theorem addRefreshToken_length_le (u : UserRec) (tok : String) (now : Int) :
    (addRefreshToken u tok now).refreshTokens.length ≤ 5 := by
  simp only [addRefreshToken]
  split
  · simp only [List.length_drop]
    omega
  · rename_i h
    omega

theorem addRefreshToken_suffix (u : UserRec) (tok : String) (now : Int) :
    (addRefreshToken u tok now).refreshTokens <:+
      (u.refreshTokens ++ [⟨tok, now, now + sevenDaysMs⟩]) := by
  simp only [addRefreshToken]
  split
  · exact List.drop_suffix _ _
  · exact List.suffix_refl _

theorem foldl_addRefreshToken_le (adds : List (String × Int)) :
    ∀ v : UserRec, v.refreshTokens.length ≤ 5 →
      ((adds.foldl (fun w a => addRefreshToken w a.1 a.2) v).refreshTokens.length
        ≤ 5) := by
  induction adds with
  | nil => intro v hv; simpa using hv
  | cons a rest ih =>
      intro v hv
      exact ih (addRefreshToken v a.1 a.2) (addRefreshToken_length_le v a.1 a.2)

theorem getLast?_drop_of_lt {α : Type} {l : List α} {k : Nat}
    (h : k < l.length) : (l.drop k).getLast? = l.getLast? := by
  rw [List.getLast?_eq_getElem?, List.getLast?_eq_getElem?, List.getElem?_drop,
      List.length_drop]
  have h2 : k + (l.length - k - 1) = l.length - 1 := by omega
  rw [h2]

theorem addRefreshToken_getLast (u : UserRec) (tok : String) (now : Int) :
    (addRefreshToken u tok now).refreshTokens.getLast? =
      some ⟨tok, now, now + sevenDaysMs⟩ := by
  simp only [addRefreshToken]
  split
  · rename_i h
    rw [getLast?_drop_of_lt (by omega), List.getLast?_concat]
  · exact List.getLast?_concat _

theorem mem_addRefreshToken {u : UserRec} {tok : String} {now : Int}
    {e : TokenEntry} (h : e ∈ (addRefreshToken u tok now).refreshTokens) :
    e ∈ u.refreshTokens ∨ e = ⟨tok, now, now + sevenDaysMs⟩ := by
  have hs := addRefreshToken_suffix u tok now
  have h2 : e ∈ u.refreshTokens ++ [⟨tok, now, now + sevenDaysMs⟩] :=
    hs.sublist.subset h
  rcases List.mem_append.mp h2 with h3 | h3
  · exact Or.inl h3
  · exact Or.inr (List.mem_singleton.mp h3)

/-- C2 is refuted at the lock boundary: a user with 4 prior failed
attempts and lockUntil equal to the current instant is not locked, and
lockUntil is not strictly in the past, so the claim requires the
incremented count 5 to set lockUntil to now + 2 hours; the code
increments to 5 but leaves lockUntil at its old value because the
lock-setting guard also requires lockUntil to be absent. -/
theorem incLoginAttempts_lock_boundary_cex :
    isLocked uBoundary 1000 = false ∧
    uBoundary.lockUntil = some 1000 ∧ ¬ ((1000 : Int) < 1000) ∧
    uBoundary.loginAttempts = 4 ∧
    (incLoginAttempts uBoundary 1000).loginAttempts = 5 ∧
    (incLoginAttempts uBoundary 1000).lockUntil ≠
      some (1000 + 2 * 60 * 60 * 1000) := by
  refine ⟨by decide, rfl, by omega, rfl, by decide, by decide⟩

/-- C2 (amended): on a failed attempt while the account is not locked:
if lockUntil is set and strictly in the past, loginAttempts is reset to
1 and lockUntil is cleared; if lockUntil is absent, loginAttempts is
incremented by exactly 1, and lockUntil is set to now + 2 hours exactly
when the incremented count reaches 5 or more; if lockUntil is set but
not strictly in the past, loginAttempts is incremented by exactly 1 and
no new lock is set. -/
theorem incLoginAttempts_failure_cases (u : UserRec) (now : Int)
    (_hl : isLocked u now = false) :
    (∀ t, u.lockUntil = some t → t < now →
      incLoginAttempts u now =
        { u with loginAttempts := 1, lockUntil := none }) ∧
    (u.lockUntil = none →
      (incLoginAttempts u now).loginAttempts = u.loginAttempts + 1 ∧
      (u.loginAttempts + 1 ≥ 5 →
        (incLoginAttempts u now).lockUntil = some (now + lockTimeMs)) ∧
      (u.loginAttempts + 1 < 5 →
        (incLoginAttempts u now).lockUntil = none)) ∧
    (∀ t, u.lockUntil = some t → ¬ t < now →
      incLoginAttempts u now =
        { u with loginAttempts := u.loginAttempts + 1 }) := by
  refine ⟨?_, ?_, ?_⟩
  · intro t ht hp
    exact incLoginAttempts_some_past u now t ht hp
  · intro hn
    obtain ⟨h1, _, _, h4, h5⟩ := incLoginAttempts_none_fields u now hn
    exact ⟨h1, h5, h4⟩
  · intro t ht hnp
    exact incLoginAttempts_some_not_past u now t ht hnp

/-- Witness for the amended C2 at a concrete input: the fresh user is
not locked and a failed attempt takes its counter from 0 to 1. -/
theorem incLoginAttempts_failure_cases_inst :
    isLocked uFresh 0 = false ∧
    (incLoginAttempts uFresh 0).loginAttempts = 1 :=
  ⟨by decide, ((incLoginAttempts_failure_cases uFresh 0 (by decide)).2.1 rfl).1⟩

/-- C4: every addition leaves the registry with at most 5 entries, the
surviving entries form a suffix of the old list with the new entry
appended (so eviction removes the oldest entries and keeps insertion
order), an addition that would exceed 5 leaves exactly 5, and any
sequence of additions from a bounded registry keeps it bounded by 5. -/
theorem addRefreshToken_bound_and_eviction (u : UserRec) (tok : String)
    (now : Int) :
    (addRefreshToken u tok now).refreshTokens.length ≤ 5 ∧
    (addRefreshToken u tok now).refreshTokens <:+
      (u.refreshTokens ++ [⟨tok, now, now + sevenDaysMs⟩]) ∧
    (u.refreshTokens.length + 1 > 5 →
      (addRefreshToken u tok now).refreshTokens.length = 5) ∧
    (∀ adds : List (String × Int), u.refreshTokens.length ≤ 5 →
      ((adds.foldl (fun w a => addRefreshToken w a.1 a.2) u).refreshTokens.length
        ≤ 5)) := by
  refine ⟨addRefreshToken_length_le u tok now, addRefreshToken_suffix u tok now,
    ?_, ?_⟩
  · intro hgt
    simp only [addRefreshToken]
    rw [if_pos (by simp; omega)]
    simp only [List.length_drop]
    simp
    omega
  · intro adds hu
    exact foldl_addRefreshToken_le adds u hu

/-- Witness for C4 at a concrete input: adding a sixth token to a
registry of five leaves exactly five entries. -/
theorem addRefreshToken_bound_and_eviction_inst :
    uFive.refreshTokens.length + 1 > 5 ∧
    (addRefreshToken uFive "t6" 20).refreshTokens.length = 5 :=
  ⟨by decide, (addRefreshToken_bound_and_eviction uFive "t6" 20).2.2.1 (by decide)⟩

/-- C5 is refuted: with JWT_REFRESH_EXPIRES_IN configured to one day,
the entry stored by addRefreshToken still expires seven days after now
(the duration is hardcoded), not now plus the configured TTL, although
the signed refresh token itself would expire after the configured one
day. -/
theorem addRefreshToken_ignores_config_ttl_cex :
    (addRefreshToken uFresh "tok" 0).refreshTokens = [⟨"tok", 0, 604800000⟩] ∧
    generateRefreshTokenExpiry cfgOneDay 0 = 86400000 ∧
    (604800000 : Int) ≠ 0 + cfgOneDay.jwtRefreshExpiresIn := by
  refine ⟨by decide, by decide, by decide⟩

/-- C5 (amended): the stored entry for an added refresh token always
expires exactly seven days after now, a hardcoded duration that equals
the configured refresh TTL, and hence the signed token expiry, only
under the default configuration of 7 days. -/
theorem addRefreshToken_expiry_seven_days (u : UserRec) (tok : String)
    (now : Int) :
    (addRefreshToken u tok now).refreshTokens.getLast? =
      some ⟨tok, now, now + sevenDaysMs⟩ ∧
    generateRefreshTokenExpiry defaultConfig now = now + sevenDaysMs :=
  ⟨addRefreshToken_getLast u tok now, rfl⟩

/-- C1: starting from a fresh account (0 attempts, no lock, active),
five consecutive failed login attempts (wrong password each time) leave
the persisted account with loginAttempts = 5 and lockUntil equal to the
instant of the fifth failure plus 2 hours; and any login attempt
against any account whose lockUntil lies strictly in the future is
answered 423 AccountLocked, never 401 InvalidCredentials, for every
presented password and every comparison outcome. -/
theorem login_locks_after_five_failures
    (bc : String → String → Bool) (pw r : String) (u0 : UserRec)
    (t1 t2 t3 t4 t5 : Int)
    (h0 : u0.loginAttempts = 0) (h1 : u0.lockUntil = none)
    (ha : u0.isActive = true) (hbc : bc pw u0.password = false) :
    ∃ u5 : UserRec,
      (login bc t5 ((login bc t4 ((login bc t3 ((login bc t2 ((login bc t1
        (some u0) pw r).1) pw r).1) pw r).1) pw r).1) pw r).1 = some u5 ∧
      u5.loginAttempts = 5 ∧ u5.lockUntil = some (t5 + lockTimeMs) ∧
      ∀ (v : UserRec) (L t6 : Int) (bc2 : String → String → Bool)
        (pw2 r2 : String),
        v.lockUntil = some L → t6 < L →
        (login bc2 t6 (some v) pw2 r2).2 =
          ⟨423, false,
           "Account temporarily locked due to too many failed login attempts"⟩ := by
  have hstep : ∀ (u : UserRec) (t : Int), u.lockUntil = none →
      u.isActive = true → u.password = u0.password →
      login bc t (some u) pw r =
        (some (incLoginAttempts u t), ⟨401, false, "Invalid credentials"⟩) := by
    intro u t hn hact hpw
    refine login_fail_eq bc t u pw r (isLocked_eq_false_of_none hn t) hact ?_
    rw [hpw]
    exact hbc
  have f1 := incLoginAttempts_none_fields u0 t1 h1
  have n1 : (incLoginAttempts u0 t1).lockUntil = none :=
    f1.2.2.2.1 (by omega)
  have a1 : (incLoginAttempts u0 t1).loginAttempts = 1 := by rw [f1.1, h0]
  have p1 : (incLoginAttempts u0 t1).password = u0.password := f1.2.1
  have c1 : (incLoginAttempts u0 t1).isActive = true := by rw [f1.2.2.1, ha]
  have f2 := incLoginAttempts_none_fields (incLoginAttempts u0 t1) t2 n1
  have n2 : (incLoginAttempts (incLoginAttempts u0 t1) t2).lockUntil = none :=
    f2.2.2.2.1 (by omega)
  have a2 : (incLoginAttempts (incLoginAttempts u0 t1) t2).loginAttempts = 2 := by
    rw [f2.1, a1]
  have p2 : (incLoginAttempts (incLoginAttempts u0 t1) t2).password
      = u0.password := by rw [f2.2.1, p1]
  have c2 : (incLoginAttempts (incLoginAttempts u0 t1) t2).isActive = true := by
    rw [f2.2.2.1, c1]
  have f3 := incLoginAttempts_none_fields
    (incLoginAttempts (incLoginAttempts u0 t1) t2) t3 n2
  have n3 : (incLoginAttempts (incLoginAttempts (incLoginAttempts u0 t1) t2)
      t3).lockUntil = none := f3.2.2.2.1 (by omega)
  have a3 : (incLoginAttempts (incLoginAttempts (incLoginAttempts u0 t1) t2)
      t3).loginAttempts = 3 := by rw [f3.1, a2]
  have p3 : (incLoginAttempts (incLoginAttempts (incLoginAttempts u0 t1) t2)
      t3).password = u0.password := by rw [f3.2.1, p2]
  have c3 : (incLoginAttempts (incLoginAttempts (incLoginAttempts u0 t1) t2)
      t3).isActive = true := by rw [f3.2.2.1, c2]
  have f4 := incLoginAttempts_none_fields
    (incLoginAttempts (incLoginAttempts (incLoginAttempts u0 t1) t2) t3) t4 n3
  have n4 : (incLoginAttempts (incLoginAttempts (incLoginAttempts
      (incLoginAttempts u0 t1) t2) t3) t4).lockUntil = none :=
    f4.2.2.2.1 (by omega)
  have a4 : (incLoginAttempts (incLoginAttempts (incLoginAttempts
      (incLoginAttempts u0 t1) t2) t3) t4).loginAttempts = 4 := by
    rw [f4.1, a3]
  have p4 : (incLoginAttempts (incLoginAttempts (incLoginAttempts
      (incLoginAttempts u0 t1) t2) t3) t4).password = u0.password := by
    rw [f4.2.1, p3]
  have c4 : (incLoginAttempts (incLoginAttempts (incLoginAttempts
      (incLoginAttempts u0 t1) t2) t3) t4).isActive = true := by
    rw [f4.2.2.1, c3]
  have f5 := incLoginAttempts_none_fields
    (incLoginAttempts (incLoginAttempts (incLoginAttempts
      (incLoginAttempts u0 t1) t2) t3) t4) t5 n4
  have a5 : (incLoginAttempts (incLoginAttempts (incLoginAttempts
      (incLoginAttempts (incLoginAttempts u0 t1) t2) t3) t4)
      t5).loginAttempts = 5 := by rw [f5.1, a4]
  have l5 : (incLoginAttempts (incLoginAttempts (incLoginAttempts
      (incLoginAttempts (incLoginAttempts u0 t1) t2) t3) t4)
      t5).lockUntil = some (t5 + lockTimeMs) := f5.2.2.2.2 (by omega)
  refine ⟨incLoginAttempts (incLoginAttempts (incLoginAttempts
      (incLoginAttempts (incLoginAttempts u0 t1) t2) t3) t4) t5,
    ?_, a5, l5, ?_⟩
  · simp only [hstep u0 t1 h1 ha rfl,
      hstep (incLoginAttempts u0 t1) t2 n1 c1 p1,
      hstep (incLoginAttempts (incLoginAttempts u0 t1) t2) t3 n2 c2 p2,
      hstep (incLoginAttempts (incLoginAttempts (incLoginAttempts u0 t1) t2)
        t3) t4 n3 c3 p3,
      hstep (incLoginAttempts (incLoginAttempts (incLoginAttempts
        (incLoginAttempts u0 t1) t2) t3) t4) t5 n4 c4 p4]
  · intro v L t6 bc2 pw2 r2 hL hfut
    have hlock : isLocked v t6 = true := by
      simp only [isLocked, hL, decide_eq_true_eq]
      exact hfut
    simp [login, hlock]

/-- Witness for C1 at a concrete input: five wrong-password logins
against the fresh account at instants 0 to 4 leave it locked until
instant 4 plus two hours with counter 5. -/
theorem login_locks_after_five_failures_inst :
    uFresh.loginAttempts = 0 ∧
    ∃ u5, (login (fun _ _ => false) 4 ((login (fun _ _ => false) 3
      ((login (fun _ _ => false) 2 ((login (fun _ _ => false) 1
      ((login (fun _ _ => false) 0 (some uFresh) "pw" "r").1)
      "pw" "r").1) "pw" "r").1) "pw" "r").1) "pw" "r").1 = some u5 ∧
      u5.loginAttempts = 5 ∧ u5.lockUntil = some (4 + lockTimeMs) := by
  refine ⟨rfl, ?_⟩
  obtain ⟨u5, e, ha5, hl5, _⟩ :=
    login_locks_after_five_failures (fun _ _ => false) "pw" "r" uFresh
      0 1 2 3 4 rfl rfl rfl rfl
  exact ⟨u5, e, ha5, hl5⟩

/-- C3: a successful login (account found, not locked, active, password
matches) persists a record with loginAttempts 0, lockUntil cleared and
lastLogin set to now, whatever the prior attempt counter and lock
timestamp were, and answers 200 success. -/
theorem login_success_clears_lockout (bc : String → String → Bool)
    (now : Int) (u : UserRec) (pw r : String)
    (hl : isLocked u now = false) (ha : u.isActive = true)
    (hbc : bc pw u.password = true) :
    ∃ u1, (login bc now (some u) pw r).1 = some u1 ∧
      u1.loginAttempts = 0 ∧ u1.lockUntil = none ∧ u1.lastLogin = some now ∧
      (login bc now (some u) pw r).2 = ⟨200, true, "Login successful"⟩ := by
  have he : login bc now (some u) pw r =
      (some (addRefreshToken (cleanupExpiredTokens
        (updateLastLogin (resetLoginAttempts u) now) now) r now),
       ⟨200, true, "Login successful"⟩) := by
    simp [login, hl, ha, hbc]
  exact ⟨addRefreshToken (cleanupExpiredTokens
    (updateLastLogin (resetLoginAttempts u) now) now) r now,
    by rw [he], rfl, rfl, rfl, by rw [he]⟩

/-- Witness for C3 at a concrete input: a correct-password login against
the five-token account at instant 20 persists counter 0, no lock and
lastLogin 20. -/
theorem login_success_clears_lockout_inst :
    isLocked uFive 20 = false ∧
    ∃ u1, (login (fun _ _ => true) 20 (some uFive) "pw" "r").1 = some u1 ∧
      u1.loginAttempts = 0 ∧ u1.lockUntil = none ∧ u1.lastLogin = some 20 := by
  refine ⟨by decide, ?_⟩
  obtain ⟨u1, e, h1, h2, h3, _⟩ :=
    login_success_clears_lockout (fun _ _ => true) 20 uFive "pw" "r"
      (by decide) (by decide) rfl
  exact ⟨u1, e, h1, h2, h3⟩

/-- C8: with the same inputs, a login against a missing account and a
login against an existing unlocked active account with a mismatching
password produce the identical response, 401 Invalid credentials, so
the two cases are indistinguishable to the caller. -/
theorem login_unknown_vs_wrong_password_identical
    (bc : String → String → Bool) (now : Int) (u : UserRec) (pw r : String)
    (hl : isLocked u now = false) (ha : u.isActive = true)
    (hbc : bc pw u.password = false) :
    (login bc now none pw r).2 = (login bc now (some u) pw r).2 ∧
    (login bc now none pw r).2 = ⟨401, false, "Invalid credentials"⟩ := by
  rw [login_fail_eq bc now u pw r hl ha hbc]
  exact ⟨rfl, rfl⟩

/-- Witness for C8 at a concrete input: unknown email and wrong password
against the fresh account return the same response. -/
theorem login_unknown_vs_wrong_password_identical_inst :
    (login (fun _ _ => false) 0 none "pw" "r").2 =
      (login (fun _ _ => false) 0 (some uFresh) "pw" "r").2 :=
  (login_unknown_vs_wrong_password_identical (fun _ _ => false) 0 uFresh
    "pw" "r" (by decide) (by decide) rfl).1

/-- C6: a successful refresh exchange replaces the presented token with
the newly generated one (assuming the generator returns a string
distinct from the presented one): the presented token is removed from
the registry, the new token is added, a subsequent refresh presenting
the old token is answered 401 Invalid refresh token, and registry
membership is necessary for any exchange: a refresh whose token passes
signature verification and resolves to a user but is absent from that
registry is answered 401 Invalid refresh token. -/
theorem refresh_rotation_single_use (decode : String → Option String)
    (uid : String) (u : UserRec) (rt nr : String) (now now2 : Int)
    (hdec : decode rt = some uid)
    (hmem : u.refreshTokens.any (fun e => e.token == rt) = true)
    (hne : nr ≠ rt) :
    ∃ u1, (refreshTokenOp (some rt) decode (fun _ => some u) nr now).1
        = some u1 ∧
      (refreshTokenOp (some rt) decode (fun _ => some u) nr now).2 =
        ⟨200, true, "Token refreshed successfully"⟩ ∧
      u1.refreshTokens.any (fun e => e.token == rt) = false ∧
      u1.refreshTokens.any (fun e => e.token == nr) = true ∧
      (∀ (v : UserRec) (nr2 : String) (t : Int),
        v.refreshTokens.any (fun e => e.token == rt) = false →
        (refreshTokenOp (some rt) decode (fun _ => some v) nr2 t).2 =
          ⟨401, false, "Invalid refresh token"⟩) ∧
      (refreshTokenOp (some rt) decode (fun _ => some u1) nr now2).2 =
        ⟨401, false, "Invalid refresh token"⟩ := by
  have hop : refreshTokenOp (some rt) decode (fun _ => some u) nr now =
      (some (addRefreshToken (removeRefreshToken u rt) nr now),
       ⟨200, true, "Token refreshed successfully"⟩) := by
    simp [refreshTokenOp, hdec, hmem]
  have hnot : (addRefreshToken (removeRefreshToken u rt) nr
      now).refreshTokens.any (fun e => e.token == rt) = false := by
    rw [List.any_eq_false]
    intro e he
    rcases mem_addRefreshToken he with h1 | h1
    · simp only [removeRefreshToken] at h1
      have h2 := (List.mem_filter.mp h1).2
      simpa using h2
    · subst h1
      simpa using hne
  have hnew : (addRefreshToken (removeRefreshToken u rt) nr
      now).refreshTokens.any (fun e => e.token == nr) = true := by
    rw [List.any_eq_true]
    refine ⟨⟨nr, now, now + sevenDaysMs⟩, ?_, by simp⟩
    exact List.mem_of_getLast?_eq_some
      (addRefreshToken_getLast (removeRefreshToken u rt) nr now)
  have hnec : ∀ (v : UserRec) (nr2 : String) (t : Int),
      v.refreshTokens.any (fun e => e.token == rt) = false →
      (refreshTokenOp (some rt) decode (fun _ => some v) nr2 t).2 =
        ⟨401, false, "Invalid refresh token"⟩ := by
    intro v nr2 t hv
    simp [refreshTokenOp, hdec, hv]
  exact ⟨addRefreshToken (removeRefreshToken u rt) nr now,
    by rw [hop], by rw [hop], hnot, hnew, hnec,
    hnec (addRefreshToken (removeRefreshToken u rt) nr now) nr now2 hnot⟩

/-- Witness for C6 at a concrete input: exchanging the only stored
token rtok for newtok removes rtok, and re-presenting rtok is answered
401 Invalid refresh token. -/
theorem refresh_rotation_single_use_inst :
    uOneTok.refreshTokens.any (fun e => e.token == "rtok") = true ∧
    ∃ u1, (refreshTokenOp (some "rtok") decodeOne (fun _ => some uOneTok)
        "newtok" 5).1 = some u1 ∧
      u1.refreshTokens.any (fun e => e.token == "rtok") = false ∧
      (refreshTokenOp (some "rtok") decodeOne (fun _ => some u1)
        "newtok" 6).2 = ⟨401, false, "Invalid refresh token"⟩ := by
  refine ⟨by decide, ?_⟩
  obtain ⟨u1, e1, _, h3, _, _, h6⟩ :=
    refresh_rotation_single_use decodeOne "u1" uOneTok "rtok" "newtok" 5 6
      (by decide) (by decide) (by decide)
  exact ⟨u1, e1, h3, h6⟩

/-- C7: logoutAll persists an empty refresh-token registry for the
authenticated user and reports success, and afterwards any token,
even one passing signature verification and resolving to that user,
presented to refresh is answered 401 Invalid refresh token. -/
theorem logoutAll_invalidates_all_tokens (u : UserRec)
    (decode : String → Option String) (uid rt nr : String) (now : Int)
    (hdec : decode rt = some uid) :
    ∃ u1, (logoutAll (some u)).1 = some u1 ∧ u1.refreshTokens = [] ∧
      (logoutAll (some u)).2.success = true ∧
      (refreshTokenOp (some rt) decode (fun _ => some u1) nr now).2 =
        ⟨401, false, "Invalid refresh token"⟩ := by
  refine ⟨clearAllRefreshTokens u, rfl, rfl, rfl, ?_⟩
  simp [refreshTokenOp, hdec, clearAllRefreshTokens]

/-- Witness for C7 at a concrete input: after logoutAll on the account
holding rtok, presenting rtok to refresh is answered 401. -/
theorem logoutAll_invalidates_all_tokens_inst :
    ∃ u1, (logoutAll (some uOneTok)).1 = some u1 ∧ u1.refreshTokens = [] ∧
      (refreshTokenOp (some "rtok") decodeOne (fun _ => some u1) "n" 7).2 =
        ⟨401, false, "Invalid refresh token"⟩ := by
  obtain ⟨u1, e1, e2, _, e4⟩ :=
    logoutAll_invalidates_all_tokens uOneTok decodeOne "u1" "rtok" "n" 7
      (by decide)
  exact ⟨u1, e1, e2, e4⟩

/-- C9: a logout request carrying no authenticated user identity, as on
the public logout route which attaches no authentication middleware,
persists no user record at all, so every refresh-token registry is left
unchanged, and still reports 200 success. -/
theorem logout_without_auth_no_effect (cookieToken : Option String)
    (findById : String → Option UserRec) :
    logout cookieToken none findById =
      (none, ⟨200, true, "Logout successful"⟩) ∧
    authRoutes.find? (fun rt => rt.path == "/logout") =
      some ⟨"/logout", false⟩ := by
  constructor
  · cases cookieToken <;> rfl
  · decide

/-- C10: for every registration request with a fresh email, whatever
extra fields the body carries (a role, a verified or an active flag),
the persisted user record has role user, isActive true and isVerified
false, and the response is 201. -/
theorem register_fixed_role_flags (bhash : String → String)
    (b : RegisterBody) (uid nr : String) (now : Int) :
    ∃ u1, (register bhash none b uid nr now).1 = some u1 ∧
      u1.role = "user" ∧ u1.isActive = true ∧ u1.isVerified = false ∧
      (register bhash none b uid nr now).2.status = 201 :=
  ⟨addRefreshToken (newUser uid b.fullName b.email.toLower (bhash b.password))
     nr now, rfl, rfl, rfl, rfl, rfl⟩

end Gatekeeper
